import Mathlib

/-!
Verification development for the multi-tenant webhook-driven bot of the
kapi-kit repository (the multi-stream bot example).  The definitions below
are a shallow embedding of that source file: pure logic is translated to
Lean functions, the mutable module state (the streamer map, the reverse
subscription index, the persisted store file, the cached platform public
key) is passed explicitly, and every external collaborator (token exchange,
token refresh, channel lookup, event-subscription provisioning, the crypto
library, the JSON parser) is a parameter whose outcome is supplied by the
caller, mirroring how the source awaits those calls.
-/

namespace MultiStreamBot

/-- JavaScript truthiness of an optional string value: a missing header
(`undefined`) and the empty string are both falsy. -/
def jsTruthy : Option String → Bool
  | none => false
  | some s => s ≠ ""

/-- Errors that a JavaScript callee can throw into a `catch` block.
`authError` stands for a rejected OAuth call, `apiError` for a rejected
platform REST call, `referenceError` for evaluating an identifier that has
no declaration, `parseError` for `JSON.parse` rejecting its input. -/
inductive JsError where
  | authError (status : Nat)
  | apiError (status : Nat)
  | referenceError
  | parseError
deriving DecidableEq, Repr

/-- The configuration object of the multi-stream bot (the fields the
embedded handlers read).  `eventSecret` is `config.eventSecret`; the source
initialises it from the environment with a non-empty default string. -/
structure Config where
  eventSecret : String
  keepAliveUserMessage : String
  keepAliveBotMessage : String
deriving DecidableEq, Repr

/-- The headers of one webhook delivery, as read by `verifyWebhook` and
`handleEventWebhook` (lines 309-312 and 554-555 of the source).  A `none`
field is a header absent from the request. -/
structure WebhookHeaders where
  messageId : Option String := none
  timestamp : Option String := none
  signature : Option String := none
  appSecret : Option String := none
  eventType : Option String := none
  subscriptionId : Option String := none
deriving DecidableEq, Repr

/-- The outcome of `crypto`: given the PEM key, the data string and the
base64 signature header, the library either returns a boolean or throws.
The source catches the throw (lines 329-334). -/
def CryptoVerify : Type := String → String → String → Except Unit Bool

/-- Embedding of `verifyWebhook(headers, rawBody)` (source lines 306-335).
`kickPublicKeyPem` is the process-wide cached key: `none` while
`loadKickPublicKey` has not stored a key.  The first guard is line 307
(`if (!kickPublicKeyPem) return false`).  The header guard is line 314.
The shared-secret gate (lines 318-323) runs when the configured secret is
a non-empty string; a missing header, an empty header and an unequal
header all fail the equality against the non-empty configured secret.
The data handed to the crypto library is the dot-joined template string of
line 326, and a library throw is caught and turned into `false`. -/
def verifyWebhook (cryptoVerify : CryptoVerify) (cfg : Config)
    (kickPublicKeyPem : Option String)
    (headers : WebhookHeaders) (rawBody : String) : Bool :=
  match kickPublicKeyPem with
  | none => false
  | some pem =>
    match headers.messageId, headers.timestamp, headers.signature with
    | some messageId, some timestamp, some signature =>
      if messageId = "" ∨ timestamp = "" ∨ signature = "" then false
      else if cfg.eventSecret ≠ "" ∧ headers.appSecret ≠ some cfg.eventSecret then
        false
      else
        match cryptoVerify pem (messageId ++ "." ++ timestamp ++ "." ++ rawBody) signature with
        | .ok ok => ok
        | .error _ => false
    | _, _, _ => false

/-- A JSON value, the shape `JSON.parse` yields and `JSON.stringify`
consumes; used to model the persisted store file. -/
inductive Json where
  | null : Json
  | bool (b : Bool) : Json
  | num (n : Int) : Json
  | str (s : String) : Json
  | arr (elems : List Json) : Json
  | obj (fields : List (String × Json)) : Json
deriving Repr

/-- Property access `j[name]` on a parsed JSON value: a lookup among the
fields of an object, `none` for every other shape. -/
def Json.getField : Json → String → Option Json
  | .obj fields, name =>
    match fields.find? (fun p => p.1 = name) with
    | some p => some p.2
    | none => none
  | _, _ => none

/-- One streamer record of the multi-stream bot, with its runtime handles.
`clientGen` models the `client` handle (bumped each time a fresh
`KickApiClient` is constructed for the streamer), `refreshTimerGen` the
`refreshTimer` handle (bumped each time a refresh timer is armed), and
`keepAliveOn` whether the `keepAliveTimer` interval is armed. -/
structure Streamer where
  broadcasterUserId : Nat
  slug : String
  refreshToken : String
  accessToken : Option String := none
  expiresIn : Nat := 0
  subscriptionId : Option String := none
  clientGen : Nat := 0
  refreshTimerGen : Nat := 0
  keepAliveOn : Bool := false
deriving DecidableEq, Repr

/-- The four fields of a streamer that `persistState` writes (source lines
241-246): everything else — in particular the access token — is dropped. -/
structure PersistedStreamer where
  broadcasterUserId : Nat
  slug : String
  refreshToken : String
  subscriptionId : Option String
deriving DecidableEq, Repr

/-- Projection of an in-memory streamer to its persisted four fields. -/
def Streamer.persistedView (s : Streamer) : PersistedStreamer :=
  { broadcasterUserId := s.broadcasterUserId
    slug := s.slug
    refreshToken := s.refreshToken
    subscriptionId := s.subscriptionId }

/-- The JSON object `persistState` emits for one streamer (source lines
242-246): exactly the four persisted fields, with a null subscription id
while provisioning has not completed. -/
def streamerPersistedJson (s : Streamer) : Json :=
  Json.obj
    [("broadcasterUserId", Json.num (Int.ofNat s.broadcasterUserId)),
     ("slug", Json.str s.slug),
     ("refreshToken", Json.str s.refreshToken),
     ("subscriptionId",
       match s.subscriptionId with
       | some i => Json.str i
       | none => Json.null)]

/-- The whole store document `persistState` writes (source lines 240-248):
an object with a single `streamers` array holding one record per streamer,
in map insertion order. -/
def persistStateDoc (streamers : List Streamer) : Json :=
  Json.obj [("streamers", Json.arr (streamers.map streamerPersistedJson))]

/-- Embedding of `loadStore()` (source lines 217-231).  The argument is
the outcome of reading and parsing the store file: `.error` covers a
missing file and a parse failure, both caught and answered with an empty
streamer list; a parsed document whose `streamers` property is not an
array is likewise answered with the empty list. -/
def loadStore (file : Except Unit Json) : List Json :=
  match file with
  | .error _ => []
  | .ok data =>
    match data.getField "streamers" with
    | some (Json.arr entries) => entries
    | _ => []

/-- Reading one persisted entry back into its four fields, the way
`initStreamers` consumes `entry.broadcasterUserId`, `entry.slug`,
`entry.refreshToken` and `entry.subscriptionId`. -/
def decodePersistedStreamer (j : Json) : Option PersistedStreamer :=
  match j.getField "broadcasterUserId", j.getField "slug",
      j.getField "refreshToken", j.getField "subscriptionId" with
  | some (Json.num (Int.ofNat bid)), some (Json.str slug),
      some (Json.str refreshToken), some subJson =>
    match subJson with
    | Json.str i => some ⟨bid, slug, refreshToken, some i⟩
    | Json.null => some ⟨bid, slug, refreshToken, none⟩
    | _ => none
  | _, _, _, _ => none

/-- `Map.prototype.set`: overwrite in place when the key is present
(JavaScript maps keep the original insertion position), append otherwise. -/
def mapSet (k : Nat) (v : Streamer) (m : List (Nat × Streamer)) :
    List (Nat × Streamer) :=
  if m.any (fun p => p.1 = k) then
    m.map (fun p => if p.1 = k then (k, v) else p)
  else m ++ [(k, v)]

/-- `Map.prototype.get` on the streamer map. -/
def mapGet (k : Nat) (m : List (Nat × Streamer)) : Option Streamer :=
  (m.find? (fun p => p.1 = k)).map (fun p => p.2)

/-- The mutable module state of the bot: the streamer map
(`state.streamers`), the reverse index (`state.subscriptions`, stored here
as subscription id to broadcaster id, the indirection standing for the
shared object reference of the source), and the last written store file. -/
structure BotState where
  streamers : List (Nat × Streamer) := []
  subscriptions : List (String × Nat) := []
  persisted : Option Json := none

/-- Embedding of `upsertStreamer(streamer)` (source lines 251-254): set
the map entry, then persist the snapshot of every streamer in the map. -/
def upsertStreamer (s : Streamer) (st : BotState) : BotState :=
  let streamers := mapSet s.broadcasterUserId s st.streamers
  { st with
    streamers := streamers
    persisted := some (persistStateDoc (streamers.map (fun p => p.2))) }

/-- A token endpoint response, with the optional fields the source guards
with `??` (lines 258-260): `refresh_token` and `expires_in` may be
absent. -/
structure TokenResponse where
  access_token : Option String := none
  refresh_token : Option String := none
  expires_in : Option Nat := none
deriving DecidableEq, Repr

/-- Embedding of `refreshStreamerTokens(streamer)` (source lines 256-262)
applied to a response the token endpoint accepted: the access token is
taken as returned, the refresh token rotates only when a new one is
returned, the expiry falls back to 3600 seconds. -/
def refreshStreamerTokens (r : TokenResponse) (s : Streamer) : Streamer :=
  { s with
    accessToken := r.access_token
    refreshToken := r.refresh_token.getD s.refreshToken
    expiresIn := r.expires_in.getD 3600 }

/-- `streamer.client = new KickApiClient(...)`: a fresh client handle. -/
def rebuildClient (s : Streamer) : Streamer :=
  { s with clientGen := s.clientGen + 1 }

/-- `streamer.refreshTimer = scheduleStreamerRefresh(streamer)`: the next
refresh timer is armed. -/
def armRefreshTimer (s : Streamer) : Streamer :=
  { s with refreshTimerGen := s.refreshTimerGen + 1 }

/-- The observable steps of one scheduled-refresh callback, in execution
order: the awaited token call, the client rebuild, the arming of the next
timer, the registry persistence, and the catch-branch log line. -/
inductive RefreshEvent where
  | refreshCall
  | setClient
  | armTimer
  | persist
  | logError
deriving DecidableEq, Repr

/-- The body of the timer callback of `scheduleStreamerRefresh(streamer)`
(source lines 374-383), without its catch: the awaited
`refreshStreamerTokens` call either throws (`AuthError` from the token
endpoint, before any mutation) or succeeds, after which the callback
rebuilds the client, arms the next refresh timer, and only then awaits
`persistState()`.  The event list records that order. -/
def refreshTickBody (resp : Except JsError TokenResponse) (tid : Nat)
    (st : BotState) : Except JsError (BotState × List RefreshEvent) :=
  match resp with
  | .error e => .error e
  | .ok r =>
    let streamers := st.streamers.map (fun p =>
      if p.1 = tid then (p.1, armRefreshTimer (rebuildClient (refreshStreamerTokens r p.2)))
      else p)
    .ok ({ st with
            streamers := streamers
            persisted := some (persistStateDoc (streamers.map (fun p => p.2))) },
         [.refreshCall, .setClient, .armTimer, .persist])

/-- One fire of the scheduled-refresh timer with its catch (source lines
374-384): a throw from the body is caught at the task boundary and only
logged, so the callback always returns and the module state of every
other streamer is untouched. -/
def refreshTaskTick (resp : Except JsError TokenResponse) (tid : Nat)
    (st : BotState) : BotState × List RefreshEvent :=
  match refreshTickBody resp tid st with
  | .ok out => out
  | .error _ => (st, [.refreshCall, .logError])

/-- One outbound platform call made by the bot. -/
structure ChatMessageCall where
  msgType : String
  content : String
  broadcasterUserId : Option Nat := none
  replyToMessageId : Option String := none
deriving DecidableEq, Repr

/-- The outbound calls the embedded handlers can attempt. -/
inductive ApiCall where
  | sendChatMessage (call : ChatMessageCall)
  | updateChannelMetadata (streamTitle : String)
deriving DecidableEq, Repr

/-- One fire of the keep-alive interval of `scheduleKeepAlive(streamer)`
(source lines 388-405).  `sendUser` and `sendBot` are the outcomes of the
two awaited `sendChatMessage` calls; the result lists the calls that were
attempted.  Both awaits sit inside one try block: when the user-identity
send rejects, control jumps to the catch and the bot-identity send is
never attempted; either way the catch only logs, the interval stays
armed, and the streamer record is unchanged. -/
def keepAliveTick (cfg : Config) (sendUser sendBot : Except JsError Unit)
    (s : Streamer) : List ApiCall × Streamer :=
  let userCall := ApiCall.sendChatMessage
    { msgType := "user", content := cfg.keepAliveUserMessage
      broadcasterUserId := some s.broadcasterUserId }
  let botCall := ApiCall.sendChatMessage
    { msgType := "bot", content := cfg.keepAliveBotMessage }
  match sendUser with
  | .error _ => ([userCall], s)
  | .ok _ =>
    match sendBot with
    | .error _ => ([userCall, botCall], s)
    | .ok _ => ([userCall, botCall], s)

/-- Whitespace as `String.prototype.trim` sees it: the ASCII whitespace
characters plus the common Unicode space characters (no-break space, BOM,
line and paragraph separators).  On the content relevant here, this
coincides with the JavaScript behaviour. -/
def jsWhitespace (c : Char) : Bool :=
  c = ' ' ∨ c = '\t' ∨ c = '\n' ∨ c = '\r' ∨ c.val = 0xB ∨ c.val = 0xC ∨
    c.val = 0xA0 ∨ c.val = 0xFEFF ∨ c.val = 0x2028 ∨ c.val = 0x2029

/-- `String.prototype.trim`: drop leading and trailing whitespace. -/
def jsTrim (s : String) : String :=
  ⟨(((s.data.dropWhile jsWhitespace).reverse).dropWhile jsWhitespace).reverse⟩

/-- `String.prototype.toLowerCase`, restricted to the simple one-to-one
character mapping (full coverage on ASCII content, which is all the
command matcher compares against). -/
def jsToLower (s : String) : String :=
  ⟨s.data.map Char.toLower⟩

/-- `String.prototype.startsWith`. -/
def jsStartsWith (s pat : String) : Bool :=
  pat.data.isPrefixOf s.data

/-- `String.prototype.slice(n)` for a non-negative index. -/
def jsDrop (s : String) (n : Nat) : String :=
  ⟨s.data.drop n⟩

/-- The two payload properties `handleChatMessage` reads
(`payload?.content`, `payload?.message_id`). -/
structure ChatPayload where
  content : Option String := none
  message_id : Option String := none
deriving DecidableEq, Repr

/-- Embedding of `handleChatMessage(streamer, payload)` (source lines
408-432), returning the outbound calls it attempts.  `updateResult` is the
outcome of the awaited `updateChannelMetadata` call, used only when the
title branch reaches it.  The ping comparison and the title-prefix test
run on the trimmed, lower-cased content; the new title is cut from the
original-casing content and trimmed again, and a whitespace-only argument
returns before any platform call.  Reply sends go through `sendReply`
(lines 434-444), which attempts the call and swallows its failure, so the
attempted call is recorded regardless of its outcome. -/
def handleChatMessage (updateResult : Except JsError Unit) (s : Streamer)
    (payload : ChatPayload) : List ApiCall :=
  match payload.content with
  | none => []
  | some raw =>
    let content := jsTrim raw
    if content = "" then []
    else
      let lower := jsToLower content
      let messageId := payload.message_id
      if lower = "!ping" then
        [ApiCall.sendChatMessage
          { msgType := "bot", content := "!pong", replyToMessageId := messageId }]
      else if jsStartsWith lower "!title " then
        let newTitle := jsTrim (jsDrop content 7)
        if newTitle = "" then []
        else
          match updateResult with
          | .ok _ =>
            [ApiCall.updateChannelMetadata newTitle,
             ApiCall.sendChatMessage
               { msgType := "bot", content := "Updated title to: " ++ newTitle
                 replyToMessageId := messageId }]
          | .error _ =>
            [ApiCall.updateChannelMetadata newTitle,
             ApiCall.sendChatMessage
               { msgType := "bot", content := "Failed to update title. Check logs."
                 replyToMessageId := messageId }]
      else []

/-- `state.subscriptions.get(subscriptionId)` followed by the use of the
stored streamer object: the reverse index resolves the subscription id to
the owning broadcaster, and the shared object reference is recovered from
the streamer map. -/
def subLookup (sid : Option String) (st : BotState) : Option Streamer :=
  match sid with
  | none => none
  | some id =>
    match st.subscriptions.find? (fun p => p.1 = id) with
    | some p => mapGet p.2 st.streamers
    | none => none

/-- Embedding of `handleEventWebhook(req, res)` (source lines 545-571),
returning the HTTP status and the outbound calls attempted.  `parsedBody`
is the outcome of `JSON.parse` on the raw body (`none` is a parse throw,
caught at line 567 and answered 500).  A failed verification is answered
401 before the body is parsed; a delivery that verifies, parses and is
either of another event type or of an unknown subscription id is logged
and acknowledged 200 with no dispatch. -/
def handleEventWebhook (cryptoVerify : CryptoVerify) (cfg : Config)
    (kickPublicKeyPem : Option String) (updateResult : Except JsError Unit)
    (parsedBody : Option ChatPayload) (headers : WebhookHeaders)
    (rawBody : String) (st : BotState) : Nat × List ApiCall :=
  if verifyWebhook cryptoVerify cfg kickPublicKeyPem headers rawBody then
    match parsedBody with
    | none => (500, [])
    | some payload =>
      if headers.eventType = some "chat.message.sent" then
        match subLookup headers.subscriptionId st with
        | none => (200, [])
        | some streamer => (200, handleChatMessage updateResult streamer payload)
      else (200, [])
  else (401, [])

/-- A channel record as `getChannels` returns it, with the two properties
`handleAddStreamer` reads.  `broadcaster_user_id` is optional because the
source guards it with a truthiness check. -/
structure Channel where
  broadcaster_user_id : Option Nat := none
  slug : String := ""
deriving DecidableEq, Repr

/-- The parsed body of an add-streamer request (source line 499). -/
structure AddStreamerBody where
  code : Option String := none
  code_verifier : Option String := none
  redirect_uri : Option String := none
deriving DecidableEq, Repr

/-- An add-streamer request: the shared-secret header and the outcome of
parsing the body (`none` is a `JSON.parse` throw, caught at line 539). -/
structure AddStreamerRequest where
  appSecret : Option String := none
  body : Option AddStreamerBody := none
deriving DecidableEq, Repr

/-- The call `initializeStreamer(streamer)` at source line 534.  No
declaration of the name `initializeStreamer` exists anywhere in the
repository — the file only defines `initStreamers` (the startup loop) —
so evaluating the call throws a ReferenceError, which the surrounding
try block of `handleAddStreamer` catches. -/
def initializeStreamer : Except JsError Unit :=
  .error .referenceError

/-- Embedding of `handleAddStreamer(req, res)` (source lines 488-543),
returning the HTTP status and the resulting module state.
`exchangeResult` and `channelsResult` are the outcomes of the awaited
external calls (`exchangeCodeForToken`, `getChannels`); a throw from
either is caught at line 539 and answered 500.  The gates mirror the
source order: shared secret (line 494), required body fields (line 500),
token pair presence (line 513), a first channel with a truthy broadcaster
id (line 521).  Past the gates the streamer record is built with a null
subscription id, `upsertStreamer` stores and persists it, and then the
call to the undefined `initializeStreamer` throws, so the catch answers
500 with the record still lacking a subscription. -/
def handleAddStreamer (cfg : Config)
    (exchangeResult : Except JsError TokenResponse)
    (channelsResult : Except JsError (List Channel))
    (req : AddStreamerRequest) (st : BotState) : Nat × BotState :=
  match req.body with
  | none => (500, st)
  | some body =>
    if cfg.eventSecret ≠ "" ∧ req.appSecret ≠ some cfg.eventSecret then (401, st)
    else
      match body.code, body.code_verifier with
      | some code, some codeVerifier =>
        if code = "" ∨ codeVerifier = "" then (400, st)
        else
          match exchangeResult with
          | .error _ => (500, st)
          | .ok tok =>
            match tok.access_token, tok.refresh_token with
            | some accessToken, some refreshToken =>
              if accessToken = "" ∨ refreshToken = "" then (500, st)
              else
                match channelsResult with
                | .error _ => (500, st)
                | .ok channels =>
                  match channels.head? with
                  | none => (500, st)
                  | some channel =>
                    match channel.broadcaster_user_id with
                    | none => (500, st)
                    | some bid =>
                      if bid = 0 then (500, st)
                      else
                        let streamer : Streamer :=
                          { broadcasterUserId := bid
                            slug := channel.slug
                            refreshToken := refreshToken
                            subscriptionId := none }
                        let st1 := upsertStreamer streamer st
                        match initializeStreamer with
                        | .ok _ => (200, st1)
                        | .error _ => (500, st1)
            | _, _ => (500, st)
      | _, _ => (400, st)

/-- A Unicode scalar value: the code points a decoded JavaScript string
can carry after UTF-8 decoding (no surrogates, at most U+10FFFF). -/
def ValidScalar (c : Nat) : Prop :=
  c < 0x110000 ∧ ¬ (0xD800 ≤ c ∧ c ≤ 0xDFFF)

instance (c : Nat) : Decidable (ValidScalar c) := by
  unfold ValidScalar; infer_instance

/-- UTF-8 encoding of one scalar value (what `verifier.update` does to
each character of the string it is given). -/
def utf8EncodeChar (c : Nat) : List Nat :=
  if c < 0x80 then [c]
  else if c < 0x800 then [0xC0 + c / 64, 0x80 + c % 64]
  else if c < 0x10000 then
    [0xE0 + c / 4096, 0x80 + c / 64 % 64, 0x80 + c % 64]
  else
    [0xF0 + c / 262144, 0x80 + c / 4096 % 64, 0x80 + c / 64 % 64, 0x80 + c % 64]

/-- UTF-8 encoding of a string given as its scalar values. -/
def utf8Encode : List Nat → List Nat
  | [] => []
  | c :: cs => utf8EncodeChar c ++ utf8Encode cs

/-- UTF-8 decoding with replacement, the way `buffer.toString()` turns
received bytes into a JavaScript string: well-formed sequences decode to
their scalar value, each maximal ill-formed subpart becomes one U+FFFD,
and decoding resumes at the byte that failed. -/
def utf8DecodeReplace : List Nat → List Nat
  | [] => []
  | b :: rest =>
    if b < 0x80 then b :: utf8DecodeReplace rest
    else if 0xC2 ≤ b ∧ b ≤ 0xDF then
      match rest with
      | [] => [0xFFFD]
      | b2 :: rest2 =>
        if 0x80 ≤ b2 ∧ b2 ≤ 0xBF then
          ((b - 0xC0) * 64 + (b2 - 0x80)) :: utf8DecodeReplace rest2
        else 0xFFFD :: utf8DecodeReplace (b2 :: rest2)
    else if 0xE0 ≤ b ∧ b ≤ 0xEF then
      match rest with
      | [] => [0xFFFD]
      | b2 :: rest2 =>
        if (if b = 0xE0 then 0xA0 ≤ b2 ∧ b2 ≤ 0xBF
            else if b = 0xED then 0x80 ≤ b2 ∧ b2 ≤ 0x9F
            else 0x80 ≤ b2 ∧ b2 ≤ 0xBF) then
          match rest2 with
          | [] => [0xFFFD]
          | b3 :: rest3 =>
            if 0x80 ≤ b3 ∧ b3 ≤ 0xBF then
              ((b - 0xE0) * 4096 + (b2 - 0x80) * 64 + (b3 - 0x80)) ::
                utf8DecodeReplace rest3
            else 0xFFFD :: utf8DecodeReplace (b3 :: rest3)
        else 0xFFFD :: utf8DecodeReplace (b2 :: rest2)
    else if 0xF0 ≤ b ∧ b ≤ 0xF4 then
      match rest with
      | [] => [0xFFFD]
      | b2 :: rest2 =>
        if (if b = 0xF0 then 0x90 ≤ b2 ∧ b2 ≤ 0xBF
            else if b = 0xF4 then 0x80 ≤ b2 ∧ b2 ≤ 0x8F
            else 0x80 ≤ b2 ∧ b2 ≤ 0xBF) then
          match rest2 with
          | [] => [0xFFFD]
          | b3 :: rest3 =>
            if 0x80 ≤ b3 ∧ b3 ≤ 0xBF then
              match rest3 with
              | [] => [0xFFFD]
              | b4 :: rest4 =>
                if 0x80 ≤ b4 ∧ b4 ≤ 0xBF then
                  ((b - 0xF0) * 262144 + (b2 - 0x80) * 4096 +
                      (b3 - 0x80) * 64 + (b4 - 0x80)) ::
                    utf8DecodeReplace rest4
                else 0xFFFD :: utf8DecodeReplace (b4 :: rest4)
            else 0xFFFD :: utf8DecodeReplace (b3 :: rest3)
        else 0xFFFD :: utf8DecodeReplace (b2 :: rest2)
    else 0xFFFD :: utf8DecodeReplace rest

/-- Embedding of the payload construction of source line 326 at the level
of bytes: `rawBody` is the received body buffer, the template literal
turns it into a string by UTF-8 decoding with replacement, and
`verifier.update` feeds the UTF-8 encoding of the dot-joined string to
the signature check.  `messageId` and `timestamp` are the header strings
as scalar values; 46 is the dot. -/
def signedMessageBytes (messageId timestamp rawBody : List Nat) : List Nat :=
  utf8Encode (messageId ++ [46] ++ timestamp ++ [46] ++ utf8DecodeReplace rawBody)

theorem utf8Encode_append (a b : List Nat) :
    utf8Encode (a ++ b) = utf8Encode a ++ utf8Encode b := by
  induction a with
  | nil => rfl
  | cons c cs ih => simp [utf8Encode, ih]

set_option maxHeartbeats 2000000 in
theorem utf8DecodeReplace_encodeChar (c : Nat) (hv : ValidScalar c)
    (rest : List Nat) :
    utf8DecodeReplace (utf8EncodeChar c ++ rest) = c :: utf8DecodeReplace rest := by
  obtain ⟨hlt, hsur⟩ := hv
  rw [utf8EncodeChar]
  by_cases h1 : c < 0x80
  · rw [if_pos h1]
    simp only [List.cons_append, List.nil_append]
    conv_lhs => rw [utf8DecodeReplace.eq_def]
    simp only []
    rw [if_pos h1]
  · rw [if_neg h1]
    by_cases h2 : c < 0x800
    · rw [if_pos h2]
      simp only [List.cons_append, List.nil_append]
      conv_lhs => rw [utf8DecodeReplace.eq_def]
      simp only []
      split_ifs <;> first
        | (simp only [List.cons.injEq]; exact ⟨by omega, trivial⟩)
        | omega
    · rw [if_neg h2]
      by_cases h3 : c < 0x10000
      · rw [if_pos h3]
        simp only [List.cons_append, List.nil_append]
        conv_lhs => rw [utf8DecodeReplace.eq_def]
        simp only []
        split_ifs <;> first
          | (simp only [List.cons.injEq]; exact ⟨by omega, trivial⟩)
          | omega
      · rw [if_neg h3]
        simp only [List.cons_append, List.nil_append]
        conv_lhs => rw [utf8DecodeReplace.eq_def]
        simp only []
        split_ifs <;> first
          | (simp only [List.cons.injEq]; exact ⟨by omega, trivial⟩)
          | omega

theorem utf8DecodeReplace_encode_append (s rest : List Nat)
    (hv : ∀ c ∈ s, ValidScalar c) :
    utf8DecodeReplace (utf8Encode s ++ rest) = s ++ utf8DecodeReplace rest := by
  induction s with
  | nil => rfl
  | cons c cs ih =>
    have hc : ValidScalar c := hv c (List.mem_cons_self c cs)
    have hcs : ∀ x ∈ cs, ValidScalar x := fun x hx => hv x (List.mem_cons_of_mem c hx)
    simp only [utf8Encode, List.append_assoc, List.cons_append]
    rw [utf8DecodeReplace_encodeChar c hc, ih hcs]

theorem utf8DecodeReplace_encode (s : List Nat) (hv : ∀ c ∈ s, ValidScalar c) :
    utf8DecodeReplace (utf8Encode s) = s := by
  have h := utf8DecodeReplace_encode_append s [] hv
  simpa [utf8DecodeReplace] using h

/-- C10: while the process-wide cached platform public key has not been
loaded, webhook verification returns false for every crypto outcome,
configuration, header set and raw body — the guard of source line 307
answers before any header, shared secret or signature is inspected, so
the bot fails closed on a missing key instead of skipping verification. -/
theorem claim_C10_no_key_fails_closed (cryptoVerify : CryptoVerify)
    (cfg : Config) (headers : WebhookHeaders) (rawBody : String) :
    verifyWebhook cryptoVerify cfg none headers rawBody = false := rfl

/-- C2: webhook verification fails closed.  For every input it returns
false (the embedding is a total function into Bool, so no exception
escapes) when the message-id, timestamp or signature header is missing,
when a configured (non-empty) shared secret is not matched by the header
value — whatever the crypto outcome would have been — or when the
signature library throws. -/
theorem claim_C2_verify_fails_closed (cryptoVerify : CryptoVerify)
    (cfg : Config) (key : Option String) (headers : WebhookHeaders)
    (rawBody : String) :
    (headers.messageId = none ∨ headers.timestamp = none ∨ headers.signature = none →
      verifyWebhook cryptoVerify cfg key headers rawBody = false)
  ∧ (cfg.eventSecret ≠ "" → headers.appSecret ≠ some cfg.eventSecret →
      verifyWebhook cryptoVerify cfg key headers rawBody = false)
  ∧ (∀ pem mid ts sig, key = some pem → headers.messageId = some mid →
      headers.timestamp = some ts → headers.signature = some sig →
      cryptoVerify pem (mid ++ "." ++ ts ++ "." ++ rawBody) sig = .error () →
      verifyWebhook cryptoVerify cfg key headers rawBody = false) := by
  obtain ⟨mi, tsh, sih, aseh, eth, sidh⟩ := headers
  refine ⟨?_, ?_, ?_⟩
  · intro h
    rcases key with _ | pem
    · rfl
    · rcases h with h | h | h <;> subst h
      · rfl
      · rcases mi with _ | mi <;> rfl
      · rcases mi with _ | mi
        · rfl
        · rcases tsh with _ | tsv <;> rfl
  · intro hs hm
    rcases key with _ | pem
    · rfl
    · rcases mi with _ | mi
      · rfl
      · rcases tsh with _ | tsv
        · rfl
        · rcases sih with _ | siv
          · rfl
          · simp only [verifyWebhook]
            split_ifs with h1 h2
            · rfl
            · rfl
            · exact absurd ⟨hs, hm⟩ h2
  · intro pem mid ts sig hkey hmi hts hsig hcv
    subst hkey; subst hmi; subst hts; subst hsig
    simp only [verifyWebhook]
    split_ifs with h1 h2
    · rfl
    · rfl
    · rw [hcv]

/-- A crypto outcome that accepts every signature. -/
def cryptoAlwaysOk : CryptoVerify := fun _ _ _ => .ok true

/-- A crypto outcome that throws on every call. -/
def cryptoAlwaysThrows : CryptoVerify := fun _ _ _ => .error ()

/-- A configuration with a configured shared secret. -/
def hookConfig : Config :=
  { eventSecret := "hook-secret"
    keepAliveUserMessage := "stay hydrated"
    keepAliveBotMessage := "bot online" }

/-- Headers of a delivery lacking the message-id header. -/
def headersNoMessageId : WebhookHeaders :=
  { timestamp := some "1700000000", signature := some "c2ln"
    appSecret := some "hook-secret" }

/-- Headers that are complete but carry the wrong shared secret. -/
def headersWrongSecret : WebhookHeaders :=
  { messageId := some "m1", timestamp := some "1700000000"
    signature := some "c2ln", appSecret := some "wrong" }

/-- Headers of a complete, correctly-authenticated delivery. -/
def headersComplete : WebhookHeaders :=
  { messageId := some "m1", timestamp := some "1700000000"
    signature := some "c2ln", appSecret := some "hook-secret"
    eventType := some "chat.message.sent", subscriptionId := some "sub-1" }

theorem claim_C2_verify_fails_closed_witness :
    verifyWebhook cryptoAlwaysOk hookConfig (some "PEM") headersNoMessageId "body" = false
  ∧ verifyWebhook cryptoAlwaysOk hookConfig (some "PEM") headersWrongSecret "body" = false
  ∧ verifyWebhook cryptoAlwaysThrows hookConfig (some "PEM") headersComplete "body" = false :=
  ⟨(claim_C2_verify_fails_closed cryptoAlwaysOk hookConfig (some "PEM")
      headersNoMessageId "body").1 (Or.inl rfl),
   (claim_C2_verify_fails_closed cryptoAlwaysOk hookConfig (some "PEM")
      headersWrongSecret "body").2.1 (by decide) (by decide),
   (claim_C2_verify_fails_closed cryptoAlwaysThrows hookConfig (some "PEM")
      headersComplete "body").2.2 "PEM" "m1" "1700000000" "c2ln" rfl rfl rfl rfl rfl⟩

/-- The onboarding configuration of the C1 scenario: a configured caller
secret. -/
def onboardConfig : Config :=
  { eventSecret := "onboard-secret"
    keepAliveUserMessage := "stay hydrated"
    keepAliveBotMessage := "bot online" }

/-- The C1 scenario request: valid shared secret, code `abc`, verifier
`xyz`. -/
def onboardRequest : AddStreamerRequest :=
  { appSecret := some "onboard-secret"
    body := some { code := some "abc", code_verifier := some "xyz" } }

/-- The mocked token exchange of the C1 scenario. -/
def onboardExchange : Except JsError TokenResponse :=
  .ok { access_token := some "AT1", refresh_token := some "RT1", expires_in := some 3600 }

/-- The mocked channel lookup of the C1 scenario. -/
def onboardChannels : Except JsError (List Channel) :=
  .ok [{ broadcaster_user_id := some 42, slug := "foo" }]

/-- The streamer record the scenario leaves behind: subscription id still
null, because the handler crashed before provisioning. -/
def onboardStreamer : Streamer :=
  { broadcasterUserId := 42, slug := "foo", refreshToken := "RT1"
    subscriptionId := none }

/-- C1 (failing input of the code bug): in the onboarding scenario —
valid shared secret, code and verifier present, token exchange returning
AT1/RT1/3600, channel lookup returning broadcaster 42 with slug `foo` —
the handler reaches source line 534 and calls `initializeStreamer`, a
name defined nowhere in the repository.  The resulting ReferenceError is
caught and the endpoint answers 500, not 200, with the registry holding
the record for broadcaster 42 whose subscription id is still null, never
the non-null subscription the claim (and the repository documentation)
promises. -/
theorem claim_C1_onboarding_scenario :
    (handleAddStreamer onboardConfig onboardExchange onboardChannels
        onboardRequest {}).1 = 500
  ∧ (handleAddStreamer onboardConfig onboardExchange onboardChannels
        onboardRequest {}).2.streamers = [(42, onboardStreamer)]
  ∧ (mapGet 42 (handleAddStreamer onboardConfig onboardExchange onboardChannels
        onboardRequest {}).2.streamers).map (fun s => s.subscriptionId) = some none
  ∧ (handleAddStreamer onboardConfig onboardExchange onboardChannels
        onboardRequest {}).2.persisted = some (persistStateDoc [onboardStreamer]) :=
  ⟨by decide, by decide, by decide, rfl⟩

/-- C3: persisting through the registry and reloading the store
reproduces the four persisted fields of every tenant exactly, and the
persisted output never carries the access credential: the document is
invariant under replacing every access token, because `persistState`
projects only the four durable fields. -/
theorem claim_C3_roundtrip (ss : List Streamer) :
    (loadStore (.ok (persistStateDoc ss))).map decodePersistedStreamer
      = ss.map (fun s => some s.persistedView)
  ∧ ∀ newTok : Option String,
      persistStateDoc (ss.map (fun s => { s with accessToken := newTok }))
        = persistStateDoc ss := by
  constructor
  · have hload : loadStore (.ok (persistStateDoc ss)) = ss.map streamerPersistedJson := by
      simp [loadStore, persistStateDoc, Json.getField, List.find?]
    rw [hload, List.map_map]
    have hdec : ∀ s : Streamer,
        decodePersistedStreamer (streamerPersistedJson s) = some s.persistedView := by
      intro s
      rcases hsub : s.subscriptionId with _ | i <;>
        simp [decodePersistedStreamer, streamerPersistedJson, Json.getField,
          List.find?, Streamer.persistedView, hsub]
    simp [Function.comp, hdec]
  · intro newTok
    have hpt : ∀ s : Streamer,
        streamerPersistedJson { s with accessToken := newTok } = streamerPersistedJson s :=
      fun _ => rfl
    simp [persistStateDoc, List.map_map, Function.comp, hpt]

/-- C4: per-tenant failure isolation.  An AuthError thrown into the
scheduled-refresh callback of tenant `t1` is caught at the task boundary
(the tick returns normally and its trace ends in the logged catch branch,
so nothing terminates the process), and the registry record of any other
tenant `t2` — including its refresh-timer and keep-alive handles — the
whole reverse index, and the persisted store are exactly as before. -/
theorem claim_C4_autherror_isolated (st : BotState) (t1 t2 : Nat)
    (status : Nat) (h : t1 ≠ t2) :
    mapGet t2 (refreshTaskTick (.error (JsError.authError status)) t1 st).1.streamers
      = mapGet t2 st.streamers
  ∧ (refreshTaskTick (.error (JsError.authError status)) t1 st).1.subscriptions
      = st.subscriptions
  ∧ (refreshTaskTick (.error (JsError.authError status)) t1 st).1.persisted
      = st.persisted
  ∧ (refreshTaskTick (.error (JsError.authError status)) t1 st).2
      = [RefreshEvent.refreshCall, RefreshEvent.logError] :=
  ⟨rfl, rfl, rfl, rfl⟩

/-- Tenant 1 of the two-tenant isolation witness. -/
def tenantOne : Streamer :=
  { broadcasterUserId := 1, slug := "alpha", refreshToken := "RT-A"
    accessToken := some "AT-A", expiresIn := 3600
    subscriptionId := some "sub-1", refreshTimerGen := 1, keepAliveOn := true }

/-- Tenant 2 of the two-tenant isolation witness. -/
def tenantTwo : Streamer :=
  { broadcasterUserId := 2, slug := "beta", refreshToken := "RT-B"
    accessToken := some "AT-B", expiresIn := 3600
    subscriptionId := some "sub-2", refreshTimerGen := 1, keepAliveOn := true }

/-- A two-tenant bot state, both tenants subscribed and scheduled. -/
def twoTenantState : BotState :=
  { streamers := [(1, tenantOne), (2, tenantTwo)]
    subscriptions := [("sub-1", 1), ("sub-2", 2)]
    persisted := some (persistStateDoc [tenantOne, tenantTwo]) }

theorem claim_C4_autherror_isolated_witness :
    mapGet 2 (refreshTaskTick (.error (JsError.authError 401)) 1 twoTenantState).1.streamers
      = mapGet 2 twoTenantState.streamers
  ∧ (refreshTaskTick (.error (JsError.authError 401)) 1 twoTenantState).1.subscriptions
      = twoTenantState.subscriptions
  ∧ (refreshTaskTick (.error (JsError.authError 401)) 1 twoTenantState).1.persisted
      = twoTenantState.persisted
  ∧ (refreshTaskTick (.error (JsError.authError 401)) 1 twoTenantState).2
      = [RefreshEvent.refreshCall, RefreshEvent.logError] :=
  claim_C4_autherror_isolated twoTenantState 1 2 401 (by decide)

/-- Position of the first occurrence of an event in a trace (length of
the trace when the event never occurs). -/
def eventPos (e : RefreshEvent) : List RefreshEvent → Nat
  | [] => 0
  | x :: xs => if x = e then 0 else eventPos e xs + 1

/-- The token response of the C9 counterexample: a successful refresh
rotating the credential to RT-A2. -/
def rotatedResponse : TokenResponse :=
  { access_token := some "AT-A2", refresh_token := some "RT-A2", expires_in := some 3600 }

/-- C9 counterexample: on a successful scheduled refresh of tenant 1, the
trace of the callback is refresh, client rebuild, timer arming, and only
then persistence — the persist step does NOT precede the arming of the
next refresh timer, contradicting the claim that the updated credential
snapshot is persisted before rescheduling.  Source order, lines 376-379:
`streamer.refreshTimer = scheduleStreamerRefresh(streamer)` runs before
`await persistState()`. -/
theorem claim_C9_counterexample :
    (refreshTaskTick (.ok rotatedResponse) 1 twoTenantState).2
      = [RefreshEvent.refreshCall, RefreshEvent.setClient,
         RefreshEvent.armTimer, RefreshEvent.persist]
  ∧ ¬ (eventPos RefreshEvent.persist
          (refreshTaskTick (.ok rotatedResponse) 1 twoTenantState).2
        < eventPos RefreshEvent.armTimer
          (refreshTaskTick (.ok rotatedResponse) 1 twoTenantState).2) :=
  ⟨rfl, by decide⟩

/-- C9 amended: on every successful scheduled token refresh, the callback
rebuilds the client, arms the next refresh timer, and then persists the
updated credential snapshot — persistence happens within the same tick
but after the next timer is armed, and the persisted document is exactly
the snapshot of the registry holding the rotated credential. -/
theorem claim_C9_amended_arm_then_persist (r : TokenResponse) (tid : Nat)
    (st : BotState) :
    (refreshTaskTick (.ok r) tid st).2
      = [RefreshEvent.refreshCall, RefreshEvent.setClient,
         RefreshEvent.armTimer, RefreshEvent.persist]
  ∧ eventPos RefreshEvent.armTimer (refreshTaskTick (.ok r) tid st).2
      < eventPos RefreshEvent.persist (refreshTaskTick (.ok r) tid st).2
  ∧ (refreshTaskTick (.ok r) tid st).1.persisted
      = some (persistStateDoc
          (((refreshTaskTick (.ok r) tid st).1.streamers).map (fun p => p.2))) := by
  refine ⟨rfl, ?_, rfl⟩
  show eventPos RefreshEvent.armTimer
      [RefreshEvent.refreshCall, RefreshEvent.setClient,
       RefreshEvent.armTimer, RefreshEvent.persist]
    < eventPos RefreshEvent.persist
      [RefreshEvent.refreshCall, RefreshEvent.setClient,
       RefreshEvent.armTimer, RefreshEvent.persist]
  decide

/-- C8 counterexample: when the viewer-identity send of a keep-alive
tick fails, the bot-identity send is never attempted — the two awaits
share one try block (source lines 389-404), so the first rejection jumps
to the catch and suppresses the second send, contradicting the claim
that a failure of the first send must not suppress the second. -/
theorem claim_C8_counterexample :
    ApiCall.sendChatMessage { msgType := "bot", content := hookConfig.keepAliveBotMessage } ∉
      (keepAliveTick hookConfig (.error (JsError.apiError 500)) (.ok ()) tenantOne).1 := by
  decide

/-- C8 amended: the two keep-alive sends run inside a single error
boundary per tick.  When the viewer-identity send fails, the bot-identity
send is skipped for that tick; when the viewer send succeeds, the bot
send is attempted regardless of its own outcome; and a failure of either
send is caught at the tick boundary, leaving the streamer record — in
particular its armed keep-alive interval — unchanged, so future ticks
are not cancelled. -/
theorem claim_C8_amended_single_boundary (cfg : Config)
    (sendUser sendBot : Except JsError Unit) (s : Streamer) :
    ((∃ e, sendUser = .error e) →
      (keepAliveTick cfg sendUser sendBot s).1
        = [ApiCall.sendChatMessage
            { msgType := "user", content := cfg.keepAliveUserMessage
              broadcasterUserId := some s.broadcasterUserId }])
  ∧ (sendUser = .ok () →
      (keepAliveTick cfg sendUser sendBot s).1
        = [ApiCall.sendChatMessage
            { msgType := "user", content := cfg.keepAliveUserMessage
              broadcasterUserId := some s.broadcasterUserId },
           ApiCall.sendChatMessage
            { msgType := "bot", content := cfg.keepAliveBotMessage }])
  ∧ (keepAliveTick cfg sendUser sendBot s).2 = s := by
  refine ⟨?_, ?_, ?_⟩
  · rintro ⟨e, he⟩
    subst he
    rfl
  · intro he
    subst he
    rcases sendBot with _ | _ <;> rfl
  · rcases sendUser with _ | u
    · rfl
    · rcases sendBot with _ | _ <;> rfl

theorem claim_C8_amended_single_boundary_witness :
    (keepAliveTick hookConfig (.error (JsError.apiError 500)) (.ok ()) tenantOne).1
      = [ApiCall.sendChatMessage
          { msgType := "user", content := hookConfig.keepAliveUserMessage
            broadcasterUserId := some tenantOne.broadcasterUserId }]
  ∧ (keepAliveTick hookConfig (.ok ()) (.error (JsError.apiError 500)) tenantOne).1
      = [ApiCall.sendChatMessage
          { msgType := "user", content := hookConfig.keepAliveUserMessage
            broadcasterUserId := some tenantOne.broadcasterUserId },
         ApiCall.sendChatMessage
          { msgType := "bot", content := hookConfig.keepAliveBotMessage }]
  ∧ (keepAliveTick hookConfig (.ok ()) (.error (JsError.apiError 500)) tenantOne).2
      = tenantOne :=
  ⟨(claim_C8_amended_single_boundary hookConfig (.error (JsError.apiError 500))
      (.ok ()) tenantOne).1 ⟨JsError.apiError 500, rfl⟩,
   (claim_C8_amended_single_boundary hookConfig (.ok ())
      (.error (JsError.apiError 500)) tenantOne).2.1 rfl,
   (claim_C8_amended_single_boundary hookConfig (.ok ())
      (.error (JsError.apiError 500)) tenantOne).2.2⟩

/-- C5 counterexample: the payload handed to the signature check is NOT
always the exact byte string `messageId + "." + timestamp + "." +
rawBody` over the untouched received bytes.  With message-id `m`,
timestamp `1` and a one-byte body 0x80 (not valid UTF-8), the template
literal of source line 326 decodes the buffer with a replacement
character and `verifier.update` re-encodes it, so the signed bytes end in
EF BF BD instead of the received 80. -/
theorem claim_C5_counterexample :
    signedMessageBytes [109] [49] [128]
      ≠ utf8Encode [109] ++ [46] ++ utf8Encode [49] ++ [46] ++ [128] := by
  decide

/-- C5 amended: the payload handed to the signature check is the UTF-8
re-encoding of the lossy UTF-8 decoding of the raw body, dot-joined with
the two headers; whenever the received body is the UTF-8 encoding of a
scalar string — every JSON body the platform sends — this equals the
exact byte string `messageId + "." + timestamp + "." + rawBody` with the
untouched received bytes, as the claim states. -/
theorem claim_C5_amended_exact_bytes_for_utf8 (messageId timestamp s : List Nat)
    (hs : ∀ c ∈ s, ValidScalar c) :
    signedMessageBytes messageId timestamp (utf8Encode s)
      = utf8Encode messageId ++ [46] ++ utf8Encode timestamp ++ [46] ++ utf8Encode s := by
  unfold signedMessageBytes
  rw [utf8DecodeReplace_encode s hs]
  have h46 : utf8EncodeChar 46 = [46] := rfl
  simp [utf8Encode_append, utf8Encode, h46, List.append_assoc]

theorem claim_C5_amended_exact_bytes_for_utf8_witness :
    signedMessageBytes [109] [49] (utf8Encode [104, 8364])
      = utf8Encode [109] ++ [46] ++ utf8Encode [49] ++ [46] ++ utf8Encode [104, 8364] :=
  claim_C5_amended_exact_bytes_for_utf8 [109] [49] [104, 8364] (by decide)

/-- C6: command processing over verified, routed chat content.  The
mixed-case input `!PING` dispatches the ping handler, whose single action
is a bot-identity `!pong` addressed as a reply to the triggering message
id; the input `!title` followed by only whitespace performs no
channel-metadata update and no confirmation (trimming strips the trailing
whitespace, so the `!title ` prefix test already fails); and content that
neither lower-cases to `!ping` nor carries the `!title ` prefix with a
non-empty trimmed argument produces no action at all. -/
theorem claim_C6_commands (u : Except JsError Unit) (s : Streamer)
    (mid : Option String) :
    handleChatMessage u s { content := some "!PING", message_id := mid }
      = [ApiCall.sendChatMessage
          { msgType := "bot", content := "!pong", replyToMessageId := mid }]
  ∧ handleChatMessage u s { content := some "!title   ", message_id := mid } = []
  ∧ ∀ p : ChatPayload,
      (∀ raw, p.content = some raw →
        jsToLower (jsTrim raw) ≠ "!ping" ∧
        ¬ (jsStartsWith (jsToLower (jsTrim raw)) "!title " = true ∧
            jsTrim (jsDrop (jsTrim raw) 7) ≠ "")) →
      handleChatMessage u s p = [] := by
  refine ⟨rfl, rfl, ?_⟩
  intro p hp
  rcases p with ⟨pc, pm⟩
  rcases pc with _ | raw
  · rfl
  · obtain ⟨h1, h2⟩ := hp raw rfl
    simp only [handleChatMessage]
    by_cases hempty : jsTrim raw = ""
    · rw [if_pos hempty]
    · rw [if_neg hempty, if_neg h1]
      by_cases hst : jsStartsWith (jsToLower (jsTrim raw)) "!title " = true
      · rw [if_pos hst]
        by_cases hnt : jsTrim (jsDrop (jsTrim raw) 7) = ""
        · rw [if_pos hnt]
        · exact absurd ⟨hst, hnt⟩ h2
      · rw [if_neg hst]

theorem claim_C6_commands_witness :
    handleChatMessage (.ok ()) tenantOne { content := some "just chatting" } = [] :=
  (claim_C6_commands (.ok ()) tenantOne none).2.2
    { content := some "just chatting" }
    (by
      intro raw h
      injection h with h
      subst h
      exact ⟨by decide, by decide⟩)

/-- C7: an authenticated delivery (verification passes) whose parsed body
is well-formed and whose subscription id resolves to no tenant in the
reverse index — including a delivery with no subscription-id header at
all — is acknowledged 200 with no command dispatch and no outbound
platform call, whatever the event type. -/
theorem claim_C7_unknown_subscription (cryptoVerify : CryptoVerify)
    (cfg : Config) (key : Option String) (updateResult : Except JsError Unit)
    (payload : ChatPayload) (headers : WebhookHeaders) (rawBody : String)
    (st : BotState)
    (hver : verifyWebhook cryptoVerify cfg key headers rawBody = true)
    (hmiss : ∀ sid, headers.subscriptionId = some sid →
      st.subscriptions.find? (fun p => p.1 = sid) = none) :
    handleEventWebhook cryptoVerify cfg key updateResult (some payload)
      headers rawBody st = (200, []) := by
  simp only [handleEventWebhook, hver, if_true]
  by_cases het : headers.eventType = some "chat.message.sent"
  · rw [if_pos het]
    have hl : subLookup headers.subscriptionId st = none := by
      unfold subLookup
      rcases hsid : headers.subscriptionId with _ | sid
      · rfl
      · simp only []
        rw [hmiss sid hsid]
    rw [hl]
  · rw [if_neg het]

theorem claim_C7_unknown_subscription_witness :
    handleEventWebhook cryptoAlwaysOk hookConfig (some "PEM") (.ok ())
      (some { content := some "!ping", message_id := some "m1" })
      headersComplete "rawbody" {} = (200, []) :=
  claim_C7_unknown_subscription cryptoAlwaysOk hookConfig (some "PEM") (.ok ())
    { content := some "!ping", message_id := some "m1" }
    headersComplete "rawbody" {}
    (by decide)
    (by intro sid h; rfl)

end MultiStreamBot
